import Mathlib

/-!
A shallow embedding of the ESP-IDF port I2C implementation
(src/port/platform/esp-idf/src/u_port_i2c.c) together with theorems about
its observable behaviour: the millisecond/register timeout conversion, the
transfer engine (the I2C command sequences built by send and receive) and
the resource-table operations (open, close-with-recovery, clock and timeout
configuration).  Hardware driver calls are modelled by an explicit oracle
that decides the outcome of each primitive, and every operation additionally
returns the list of driver calls it made, so that claims about "which
hardware calls happen" can be stated.
-/

/-- Modelled from the spec: the success outcome of the error taxonomy of
u_error_common.h (that header is not among the embedded sources); zero,
distinct from every error value, following the ubxlib convention. -/
def U_ERROR_COMMON_SUCCESS : Int := 0

/-- Modelled from the spec: the NotInitialised error of the u_error_common.h
taxonomy (table/lock absent). -/
def U_ERROR_COMMON_NOT_INITIALISED : Int := -2

/-- Modelled from the spec: the NotSupported error of the u_error_common.h
taxonomy (operation on an adopted instance, or bus recovery unavailable). -/
def U_ERROR_COMMON_NOT_SUPPORTED : Int := -4

/-- Modelled from the spec: the InvalidParameter error of the
u_error_common.h taxonomy. -/
def U_ERROR_COMMON_INVALID_PARAMETER : Int := -5

/-- Modelled from the spec: the Platform error of the u_error_common.h
taxonomy (underlying hardware call failed). -/
def U_ERROR_COMMON_PLATFORM : Int := -9

/-- U_PORT_I2C_MAX_NUM: the number of I2C HW blocks available on ESP32
(default 2). -/
def U_PORT_I2C_MAX_NUM : Nat := 2

/-- U_PORT_I2C_CLOCK_PERIOD_NS for the default clock-source selection
(U_PORT_I2C_ESP32X3_CLOCK_SOURCE = 0, the 40 MHz crystal): 25 ns. -/
def U_PORT_I2C_CLOCK_PERIOD_NS : Nat := 25

/-- U_PORT_I2C_ESP32X3_TIMEOUT_REGISTER_MAX: the maximum value that an
ESP32X3 I2C timeout register can take. -/
def U_PORT_I2C_ESP32X3_TIMEOUT_REGISTER_MAX : Nat := 22

/-- The value `y = (1UL << x) * U_PORT_I2C_CLOCK_PERIOD_NS / 1000000`
computed on each iteration of the loop in `timeoutMsToEsp32`: the timeout,
in milliseconds (truncating integer division), encoded by register value
`x`.  The arithmetic is unsigned (no overflow for `x` up to 22). -/
def espRegMs (x : Nat) : Nat :=
  2 ^ x * U_PORT_I2C_CLOCK_PERIOD_NS / 1000000

/-- The loop of `timeoutMsToEsp32` (the non-ESP32, "family B" branch):
starting from register value `x` with `fuel` loop iterations remaining
(the C loop runs while `x < U_PORT_I2C_ESP32X3_TIMEOUT_REGISTER_MAX` and no
result has been found), return the first `x` whose encoded timeout in ms is
`>= timeoutMs`, or -1 when the fuel runs out. -/
def msToEsp32Go (timeoutMs : Int) : Nat → Nat → Int
  | _, 0 => -1
  | x, fuel + 1 =>
    if (espRegMs x : Int) ≥ timeoutMs then (x : Int)
    else msToEsp32Go timeoutMs (x + 1) fuel

/-- `timeoutMsToEsp32` from u_port_i2c.c, ESP32X3 ("family B") branch: a
linear search upward from register value 0; the loop condition is
`x < U_PORT_I2C_ESP32X3_TIMEOUT_REGISTER_MAX`, i.e. 22 iterations trying
x = 0..21. -/
def timeoutMsToEsp32 (timeoutMs : Int) : Int :=
  msToEsp32Go timeoutMs 0 U_PORT_I2C_ESP32X3_TIMEOUT_REGISTER_MAX

/-- `timeoutEsp32ToMs` from u_port_i2c.c, ESP32X3 ("family B") branch:
`(1UL << timeoutEsp32) * U_PORT_I2C_CLOCK_PERIOD_NS / 1000000`, the direct
forward formula on a (non-negative) register value. -/
def timeoutEsp32ToMs (timeoutEsp32 : Nat) : Int :=
  (2 ^ timeoutEsp32 * U_PORT_I2C_CLOCK_PERIOD_NS / 1000000 : Nat)

/-- C1: the loop bound of `timeoutMsToEsp32` is `x < 22`, so register value
22 is never tried: a request of 53 ms yields -1 even though register value
22 encodes 2^22 * 25 / 1000000 = 104 ms >= 53, which the claim (and the
code's own comment, "x can be a maximum value of 22, so the largest timeout
value is 2^22 * 25ns = 104.9ms") says should be found. -/
theorem timeoutMsToEsp32_excludes_register22 :
    timeoutMsToEsp32 53 = -1 ∧ timeoutEsp32ToMs 22 = 104 ∧ (53 : Int) ≤ 104 :=
  ⟨by decide, by decide, by decide⟩

/-- C3: the Family B round-trip property fails above 52 ms: up to 52 ms the
search succeeds (52 ms maps to register 21, which encodes exactly 52 ms),
but every request in [53, 104] ms makes `timeoutMsToEsp32` return -1 (the
loop never tries register 22), so `timeoutEsp32ToMs` cannot be applied to a
valid register value at all for those requests. -/
theorem timeoutRoundTrip_breaks_above_52ms :
    timeoutMsToEsp32 52 = 21 ∧ timeoutEsp32ToMs 21 = 52 ∧
    timeoutMsToEsp32 53 = -1 ∧ timeoutMsToEsp32 104 = -1 :=
  ⟨by decide, by decide, by decide, by decide⟩

/-- I2C_MASTER_WRITE from the ESP-IDF driver header (external collaborator):
the R/W bit value for a write. -/
def I2C_MASTER_WRITE : Nat := 0

/-- I2C_MASTER_READ from the ESP-IDF driver header (external collaborator):
the R/W bit value for a read. -/
def I2C_MASTER_READ : Nat := 1

/-- U_PORT_7BIT_ADDRESS_READ: a 7-bit address shifted left with the read
bit. -/
def U_PORT_7BIT_ADDRESS_READ (a : Nat) : Nat :=
  (a <<< 1) ||| I2C_MASTER_READ

/-- U_PORT_7BIT_ADDRESS_WRITE: a 7-bit address shifted left with the write
bit. -/
def U_PORT_7BIT_ADDRESS_WRITE (a : Nat) : Nat :=
  (a <<< 1) ||| I2C_MASTER_WRITE

/-- U_PORT_10BIT_HEADER_READ: the 10-bit-address transmission header with
the read bit (reserved 0xF0 pattern with the two high address bits). -/
def U_PORT_10BIT_HEADER_READ (a : Nat) : Nat :=
  ((a &&& 0x0300) >>> 7) ||| 0xF0 ||| I2C_MASTER_READ

/-- U_PORT_10BIT_HEADER_WRITE: the 10-bit-address transmission header with
the write bit. -/
def U_PORT_10BIT_HEADER_WRITE (a : Nat) : Nat :=
  ((a &&& 0x0300) >>> 7) ||| 0xF0 ||| I2C_MASTER_WRITE

/-- U_PORT_10BIT_ADDRESS: the low byte of a 10-bit address, sent after the
header. -/
def U_PORT_10BIT_ADDRESS (a : Nat) : Nat :=
  a &&& 0xFF

/-- The acknowledge mode of an ESP-IDF I2C read primitive. -/
inductive AckMode where
  | ack
  | lastNack
deriving DecidableEq

/-- One primitive operation appended to (or executed on) an ESP-IDF I2C
command link: i2c_master_start, i2c_master_write_byte, i2c_master_write,
i2c_master_read, i2c_master_read_byte, i2c_master_stop and
i2c_master_cmd_begin respectively. -/
inductive Prim where
  | start
  | writeByte (value : Nat) (ackEn : Bool)
  | write (size : Nat) (ackEn : Bool)
  | read (size : Nat) (mode : AckMode)
  | readByte (mode : AckMode)
  | stop
  | execute
deriving DecidableEq

/-- Run a list of driver calls left to right with short-circuit on the
first failure (mirroring a C `&&` chain): returns the calls actually made
and whether all of them succeeded. -/
def chainCalls {α : Type} (ok : α → Bool) : List α → List α × Bool
  | [] => ([], true)
  | c :: cs =>
    if ok c then
      let r := chainCalls ok cs
      (c :: r.1, r.2)
    else ([c], false)

/-- The outcome of one transfer-engine operation: the returned error code
or length, the primitives invoked (in order), and whether
i2c_cmd_link_delete was invoked on the command link before returning. -/
structure EngineResult where
  code : Int
  calls : List Prim
  linkDeleted : Bool
deriving DecidableEq

/-- `send` from u_port_i2c.c: build and execute one transaction: start;
address phase (7-bit, or 10-bit header plus low byte); then, when pData is
non-NULL, a multi-byte write of `size` bytes; then a stop unless `noStop`;
then i2c_master_cmd_begin.  `drv` decides the outcome of each primitive;
the C `&&` chains short-circuit.  Any primitive failure yields the Platform
error; the command link is deleted only inside the branch where the initial
start primitive succeeded. -/
def send (drv : Prim → Bool) (address : Nat) (pDataNull : Bool) (size : Nat)
    (noStop : Bool) : EngineResult :=
  if drv .start then
    let addrList : List Prim :=
      if address > 127 then
        [.writeByte (U_PORT_10BIT_HEADER_WRITE address) true,
         .writeByte (U_PORT_10BIT_ADDRESS address) true]
      else
        [.writeByte (U_PORT_7BIT_ADDRESS_WRITE address) true]
    let addr := chainCalls drv addrList
    if addr.2 then
      let tailList : List Prim :=
        (if pDataNull then [] else [.write size true]) ++
          (if noStop then [] else [.stop]) ++ [.execute]
      let tl := chainCalls drv tailList
      { code := if tl.2 then U_ERROR_COMMON_SUCCESS else U_ERROR_COMMON_PLATFORM,
        calls := .start :: (addr.1 ++ tl.1), linkDeleted := true }
    else
      { code := U_ERROR_COMMON_PLATFORM, calls := .start :: addr.1,
        linkDeleted := true }
  else
    { code := U_ERROR_COMMON_PLATFORM, calls := [.start], linkDeleted := false }

/-- `receive` from u_port_i2c.c: start; address phase (7-bit with the read
bit, or for 10-bit addresses the write header, the low address byte, a
repeated start and the read header); then the read phase: for `size > 1` a
multi-byte ack read of `size - 1` bytes followed by a single-byte last-nack
read, for `size == 1` only the single-byte last-nack read, for `size == 0`
nothing; then stop and i2c_master_cmd_begin.  When the read phase has
succeeded but stop or execute fails, the returned value stays at the
initial SUCCESS (0) value — only start/address/read failures produce the
Platform error.  The command link is deleted only inside the branch where
the initial start primitive succeeded. -/
def receive (drv : Prim → Bool) (address : Nat) (size : Nat) : EngineResult :=
  if drv .start then
    let addrList : List Prim :=
      if address > 127 then
        [.writeByte (U_PORT_10BIT_HEADER_WRITE address) true,
         .writeByte (U_PORT_10BIT_ADDRESS address) true,
         .start,
         .writeByte (U_PORT_10BIT_HEADER_READ address) true]
      else
        [.writeByte (U_PORT_7BIT_ADDRESS_READ address) true]
    let addr := chainCalls drv addrList
    if addr.2 then
      let readList : List Prim :=
        if size > 1 then [.read (size - 1) .ack, .readByte .lastNack]
        else if size > 0 then [.readByte .lastNack]
        else []
      let rd := chainCalls drv readList
      if rd.2 then
        let tl := chainCalls drv [.stop, .execute]
        { code := if tl.2 then (size : Int) else U_ERROR_COMMON_SUCCESS,
          calls := .start :: (addr.1 ++ rd.1 ++ tl.1), linkDeleted := true }
      else
        { code := U_ERROR_COMMON_PLATFORM,
          calls := .start :: (addr.1 ++ rd.1), linkDeleted := true }
    else
      { code := U_ERROR_COMMON_PLATFORM, calls := .start :: addr.1,
        linkDeleted := true }
  else
    { code := U_ERROR_COMMON_PLATFORM, calls := [.start], linkDeleted := false }

/-- C5: evidence that the command link is not released on every exit path
and that not every primitive failure yields the Platform error: when the
initial i2c_master_start fails, both send and receive return the Platform
error without invoking i2c_cmd_link_delete (the link leaks); and when the
read phase of receive succeeds but the stop primitive fails, receive
returns the initial SUCCESS (0) value, not the Platform error (the link is
deleted on that path). -/
theorem engine_linkDelete_and_errorCode_eval :
    (send (fun _ => false) 42 false 1 false).linkDeleted = false ∧
    (send (fun _ => false) 42 false 1 false).code = U_ERROR_COMMON_PLATFORM ∧
    (receive (fun _ => false) 42 1).linkDeleted = false ∧
    (receive (fun _ => false) 42 1).code = U_ERROR_COMMON_PLATFORM ∧
    (receive (fun p => !(p == Prim.stop)) 42 1).code = U_ERROR_COMMON_SUCCESS ∧
    (receive (fun p => !(p == Prim.stop)) 42 1).linkDeleted = true ∧
    U_ERROR_COMMON_SUCCESS ≠ U_ERROR_COMMON_PLATFORM :=
  ⟨by decide, by decide, by decide, by decide, by decide, by decide, by decide⟩

/-- Whether a primitive is a read primitive (i2c_master_read or
i2c_master_read_byte). -/
def isReadPrim : Prim → Bool
  | .read _ _ => true
  | .readByte _ => true
  | _ => false

/-- The read primitives of a trace, in order. -/
def readPrims (l : List Prim) : List Prim :=
  l.filter isReadPrim

/-- A chain of driver calls in which every call succeeds performs exactly
the listed calls and reports success. -/
theorem chainCalls_allOk {α : Type} (l : List α) :
    chainCalls (fun _ => true) l = (l, true) := by
  induction l with
  | nil => rfl
  | cons c cs ih => simp [chainCalls, ih]

/-- C7: the read phase of `receive` (all primitives succeeding): with
`size = 1` exactly one single-byte last-nack read and no multi-byte read;
with `size > 1` a multi-byte ack read of `size - 1` bytes followed by one
single-byte last-nack read; with `size = 0` no read primitive at all while
stop and execute still happen; and the returned value is `size`. -/
theorem receive_read_phase_structure (address size : Nat) :
    (receive (fun _ => true) address size).code = (size : Int) ∧
    (size = 1 →
      readPrims (receive (fun _ => true) address size).calls =
        [Prim.readByte .lastNack]) ∧
    (1 < size →
      readPrims (receive (fun _ => true) address size).calls =
        [Prim.read (size - 1) .ack, Prim.readByte .lastNack]) ∧
    (size = 0 →
      readPrims (receive (fun _ => true) address size).calls = [] ∧
        Prim.stop ∈ (receive (fun _ => true) address size).calls ∧
        Prim.execute ∈ (receive (fun _ => true) address size).calls) := by
  by_cases ha : address > 127 <;>
    rcases size with _ | _ | n <;>
      simp [receive, chainCalls_allOk, readPrims, isReadPrim, ha,
        List.filter_append]

/-- C7 witness: receive of a single byte from address 42 issues exactly the
one last-nack single-byte read. -/
theorem receive_read_phase_structure_witness :
    readPrims (receive (fun _ => true) 42 1).calls = [Prim.readByte .lastNack] :=
  (receive_read_phase_structure 42 1).2.1 rfl

/-- Modelled from the spec: U_PORT_I2C_CLOCK_FREQUENCY_HERTZ, the default
clock frequency programmed at open; it is defined in u_port_i2c.h, which is
not among the embedded sources.  The spec only requires "a default clock";
the ubxlib default of 100 kHz (a positive value) is used. -/
def U_PORT_I2C_CLOCK_FREQUENCY_HERTZ : Int := 100000

/-- Modelled from the spec: U_PORT_I2C_TIMEOUT_MILLISECONDS, the default
timeout programmed at open; it is defined in u_port_i2c.h, which is not
among the embedded sources.  The ubxlib default of 10 ms is used. -/
def U_PORT_I2C_TIMEOUT_MILLISECONDS : Int := 10

/-- uPortI2cData_t: per-instance state; clockHertz doubles as the "in use"
flag (negative means closed). -/
structure uPortI2cData_t where
  pinSda : Int
  pinSdc : Int
  clockHertz : Int
  adopted : Bool
deriving DecidableEq

/-- The process-wide state of the port I2C layer: whether gMutex has been
created, the gI2cData array (length U_PORT_I2C_MAX_NUM in any reachable
state) and the gResourceAllocCount counter. -/
structure I2cState where
  mutexCreated : Bool
  gI2cData : List uPortI2cData_t
  gResourceAllocCount : Int
deriving DecidableEq

/-- One configuration-level ESP-IDF driver call: i2c_param_config,
i2c_set_timeout, i2c_get_timeout, i2c_driver_install, i2c_driver_delete. -/
inductive HwCall where
  | paramConfig (index : Int)
  | setTimeoutReg (index : Int) (value : Int)
  | getTimeoutReg (index : Int)
  | driverInstall (index : Int)
  | driverDelete (index : Int)
deriving DecidableEq

/-- A model of the ESP-IDF driver's responses: which configuration calls
succeed, and the register value that a successful i2c_get_timeout
delivers. -/
structure HwDriver where
  ok : HwCall → Bool
  timeoutRegValue : Nat

/-- The slot `gI2cData[i]` (a closed default outside the array bounds,
which no reachable handle-checked access hits). -/
def I2cState.slot (st : I2cState) (i : Int) : uPortI2cData_t :=
  st.gI2cData.getD i.toNat ⟨-1, -1, -1, false⟩

/-- Replace the slot `gI2cData[i]`. -/
def I2cState.setSlot (st : I2cState) (i : Int) (s : uPortI2cData_t) : I2cState :=
  { st with gI2cData := st.gI2cData.set i.toNat s }

/-- `closeI2c` from u_port_i2c.c: if the slot is in use, delete the driver
(only when not adopted; the result of i2c_driver_delete is ignored), mark
the slot closed and decrement the resource counter; otherwise do
nothing. -/
def closeI2c (st : I2cState) (index : Int) : I2cState × List HwCall :=
  if 0 < (st.slot index).clockHertz then
    ({ st.setSlot index { st.slot index with clockHertz := -1 } with
        gResourceAllocCount := st.gResourceAllocCount - 1 },
      if (st.slot index).adopted then [] else [.driverDelete index])
  else (st, [])

/-- `openI2c` from u_port_i2c.c: validate (range, slot not in use,
controller, and pins present unless adopting), then unless adopting run
i2c_param_config, i2c_set_timeout with the default timeout converted by
timeoutMsToEsp32, and i2c_driver_install (short-circuiting); on success
record the slot (pins, the default clock as the in-use marker, the adopted
flag), increment the resource counter and return the HW block number as
the handle.  Returns the new state, the handle or error code, and the
driver calls made. -/
def openI2c (drv : HwDriver) (st : I2cState) (i2c pinSda pinSdc : Int)
    (controller adopt : Bool) : I2cState × Int × List HwCall :=
  if st.mutexCreated then
    if 0 ≤ i2c ∧ i2c < (U_PORT_I2C_MAX_NUM : Int) ∧
        (st.slot i2c).clockHertz < 0 ∧ controller = true ∧
        (adopt = true ∨ (0 ≤ pinSda ∧ 0 ≤ pinSdc)) then
      let hw := chainCalls drv.ok
        [HwCall.paramConfig i2c,
         HwCall.setTimeoutReg i2c (timeoutMsToEsp32 U_PORT_I2C_TIMEOUT_MILLISECONDS),
         HwCall.driverInstall i2c]
      if adopt then
        ({ st.setSlot i2c
            ⟨pinSda, pinSdc, U_PORT_I2C_CLOCK_FREQUENCY_HERTZ, adopt⟩ with
            gResourceAllocCount := st.gResourceAllocCount + 1 }, i2c, [])
      else if hw.2 then
        ({ st.setSlot i2c
            ⟨pinSda, pinSdc, U_PORT_I2C_CLOCK_FREQUENCY_HERTZ, adopt⟩ with
            gResourceAllocCount := st.gResourceAllocCount + 1 }, i2c, hw.1)
      else (st, U_ERROR_COMMON_PLATFORM, hw.1)
    else (st, U_ERROR_COMMON_INVALID_PARAMETER, [])
  else (st, U_ERROR_COMMON_NOT_INITIALISED, [])

/-- `uPortI2cOpen`: open without adopting. -/
def uPortI2cOpen (drv : HwDriver) (st : I2cState) (i2c pinSda pinSdc : Int)
    (controller : Bool) : I2cState × Int × List HwCall :=
  openI2c drv st i2c pinSda pinSdc controller false

/-- `uPortI2cAdopt`: adopt an already-configured instance (pins unset). -/
def uPortI2cAdopt (drv : HwDriver) (st : I2cState) (i2c : Int)
    (controller : Bool) : I2cState × Int × List HwCall :=
  openI2c drv st i2c (-1) (-1) controller true

/-- `uPortI2cCloseRecoverBus` from u_port_i2c.c: for a valid in-use handle,
an adopted instance gets NotSupported without any action; a non-adopted
instance is closed via closeI2c and the function still returns NotSupported
(bus recovery happens implicitly on ESP-IDF re-initialisation). -/
def uPortI2cCloseRecoverBus (st : I2cState) (handle : Int) :
    I2cState × Int × List HwCall :=
  if st.mutexCreated then
    if 0 ≤ handle ∧ handle < (U_PORT_I2C_MAX_NUM : Int) ∧
        0 < (st.slot handle).clockHertz then
      if (st.slot handle).adopted then (st, U_ERROR_COMMON_NOT_SUPPORTED, [])
      else
        let r := closeI2c st handle
        (r.1, U_ERROR_COMMON_NOT_SUPPORTED, r.2)
    else (st, U_ERROR_COMMON_INVALID_PARAMETER, [])
  else (st, U_ERROR_COMMON_NOT_INITIALISED, [])

/-- `uPortI2cSetClock` from u_port_i2c.c: validate handle, in-use slot and
positive clock; NotSupported on an adopted slot; otherwise read the current
timeout register (i2c_get_timeout), delete the driver, mark the slot closed
"in case reconfiguring it doesn't work", then run i2c_param_config,
i2c_set_timeout (restoring the saved register value) and
i2c_driver_install; only if all three succeed is the slot marked in use
again with the new clock.  Platform error on any driver failure. -/
def uPortI2cSetClock (drv : HwDriver) (st : I2cState)
    (handle clockHertz : Int) : I2cState × Int × List HwCall :=
  if st.mutexCreated then
    if 0 ≤ handle ∧ handle < (U_PORT_I2C_MAX_NUM : Int) ∧
        0 < (st.slot handle).clockHertz ∧ 0 < clockHertz then
      if (st.slot handle).adopted then (st, U_ERROR_COMMON_NOT_SUPPORTED, [])
      else if drv.ok (.getTimeoutReg handle) then
        if drv.ok (.driverDelete handle) then
          let st1 := st.setSlot handle { st.slot handle with clockHertz := -1 }
          let hw := chainCalls drv.ok
            [HwCall.paramConfig handle,
             HwCall.setTimeoutReg handle (drv.timeoutRegValue : Int),
             HwCall.driverInstall handle]
          if hw.2 then
            (st1.setSlot handle
              { st1.slot handle with
                  pinSda := (st.slot handle).pinSda, clockHertz := clockHertz },
              U_ERROR_COMMON_SUCCESS,
              .getTimeoutReg handle :: .driverDelete handle :: hw.1)
          else
            (st1, U_ERROR_COMMON_PLATFORM,
              .getTimeoutReg handle :: .driverDelete handle :: hw.1)
        else
          (st, U_ERROR_COMMON_PLATFORM,
            [.getTimeoutReg handle, .driverDelete handle])
      else (st, U_ERROR_COMMON_PLATFORM, [.getTimeoutReg handle])
    else (st, U_ERROR_COMMON_INVALID_PARAMETER, [])
  else (st, U_ERROR_COMMON_NOT_INITIALISED, [])

/-- `uPortI2cGetClock` from u_port_i2c.c: NotSupported on an adopted slot,
otherwise the recorded clock; no driver call is made on any path. -/
def uPortI2cGetClock (st : I2cState) (handle : Int) : Int × List HwCall :=
  if st.mutexCreated then
    if 0 ≤ handle ∧ handle < (U_PORT_I2C_MAX_NUM : Int) ∧
        0 < (st.slot handle).clockHertz then
      if (st.slot handle).adopted then (U_ERROR_COMMON_NOT_SUPPORTED, [])
      else ((st.slot handle).clockHertz, [])
    else (U_ERROR_COMMON_INVALID_PARAMETER, [])
  else (U_ERROR_COMMON_NOT_INITIALISED, [])

/-- `uPortI2cSetTimeout` from u_port_i2c.c: for a valid in-use handle and
positive timeout, a non-adopted slot gets i2c_set_timeout with the
converted value (Platform on failure); on an adopted slot the error code is
left at its initial InvalidParameter value and no driver call is made. -/
def uPortI2cSetTimeout (drv : HwDriver) (st : I2cState)
    (handle timeoutMs : Int) : Int × List HwCall :=
  if st.mutexCreated then
    if 0 ≤ handle ∧ handle < (U_PORT_I2C_MAX_NUM : Int) ∧
        0 < (st.slot handle).clockHertz ∧ 0 < timeoutMs then
      if (st.slot handle).adopted then (U_ERROR_COMMON_INVALID_PARAMETER, [])
      else if drv.ok (.setTimeoutReg handle (timeoutMsToEsp32 timeoutMs)) then
        (U_ERROR_COMMON_SUCCESS,
          [.setTimeoutReg handle (timeoutMsToEsp32 timeoutMs)])
      else
        (U_ERROR_COMMON_PLATFORM,
          [.setTimeoutReg handle (timeoutMsToEsp32 timeoutMs)])
    else (U_ERROR_COMMON_INVALID_PARAMETER, [])
  else (U_ERROR_COMMON_NOT_INITIALISED, [])

/-- `uPortI2cGetTimeout` from u_port_i2c.c: for any valid in-use handle
(the adopted flag is not consulted), call i2c_get_timeout and convert the
delivered register value with timeoutEsp32ToMs; Platform error if the
driver call fails. -/
def uPortI2cGetTimeout (drv : HwDriver) (st : I2cState) (handle : Int) :
    Int × List HwCall :=
  if st.mutexCreated then
    if 0 ≤ handle ∧ handle < (U_PORT_I2C_MAX_NUM : Int) ∧
        0 < (st.slot handle).clockHertz then
      if drv.ok (.getTimeoutReg handle) then
        (timeoutEsp32ToMs drv.timeoutRegValue, [.getTimeoutReg handle])
      else (U_ERROR_COMMON_PLATFORM, [.getTimeoutReg handle])
    else (U_ERROR_COMMON_INVALID_PARAMETER, [])
  else (U_ERROR_COMMON_NOT_INITIALISED, [])

/-- `uPortI2cControllerSendReceive` from u_port_i2c.c: after validation
(in-use handle; a null buffer only with a zero length), a non-null send
buffer triggers `send` with `noStop = false`, and, if that returned
SUCCESS, a non-null receive buffer triggers `receive`.  Returns the final
code together with the primitive traces of the send half and of the
receive half. -/
def uPortI2cControllerSendReceive (drv : Prim → Bool) (st : I2cState)
    (handle : Int) (address : Nat) (pSendNull : Bool) (bytesToSend : Nat)
    (pReceiveNull : Bool) (bytesToReceive : Nat) :
    Int × List Prim × List Prim :=
  if st.mutexCreated then
    if 0 ≤ handle ∧ handle < (U_PORT_I2C_MAX_NUM : Int) ∧
        0 < (st.slot handle).clockHertz ∧
        (pSendNull = false ∨ bytesToSend = 0) ∧
        (pReceiveNull = false ∨ bytesToReceive = 0) then
      let s : Int × List Prim :=
        if pSendNull then (U_ERROR_COMMON_SUCCESS, [])
        else
          let sr := send drv address false bytesToSend false
          (sr.code, sr.calls)
      if s.1 = U_ERROR_COMMON_SUCCESS ∧ pReceiveNull = false then
        let rr := receive drv address bytesToReceive
        (rr.code, s.2, rr.calls)
      else (s.1, s.2, [])
    else (U_ERROR_COMMON_INVALID_PARAMETER, [], [])
  else (U_ERROR_COMMON_NOT_INITIALISED, [], [])

/-- `uPortI2cResourceAllocCount` from u_port_i2c.c: the atomic read of the
open-resource counter. -/
def uPortI2cResourceAllocCount (st : I2cState) : Int :=
  st.gResourceAllocCount

/-- The number of slots currently marked in use (clockHertz > 0). -/
def openSlotCount (st : I2cState) : Nat :=
  st.gI2cData.countP (fun s => 0 < s.clockHertz)

/-- Setting an element and then reading it back with a default yields the
element, when the index is in bounds. -/
theorem getD_set_self {α : Type} (l : List α) (n : Nat) (a d : α)
    (h : n < l.length) : (l.set n a).getD n d = a := by
  induction l generalizing n with
  | nil => simp at h
  | cons b t ih =>
    cases n with
    | zero => rfl
    | succ m => simpa using ih m (by simpa using h)

/-- Replacing an element on which `p` holds by one on which it does not
drops the `countP` by one. -/
theorem countP_set_of_flip {α : Type} (p : α → Bool) (l : List α) (n : Nat)
    (a d : α) (hn : n < l.length) (hpos : p (l.getD n d) = true)
    (hneg : p a = false) : (l.set n a).countP p + 1 = l.countP p := by
  induction l generalizing n with
  | nil => simp at hn
  | cons b t ih =>
    cases n with
    | zero =>
      simp only [List.getD_cons_zero] at hpos
      simp [List.countP_cons, hpos, hneg]
    | succ m =>
      simp only [List.getD_cons_succ] at hpos
      have h := ih m (by simpa using hn) hpos
      simp only [List.set_cons_succ, List.countP_cons]
      omega

/-- A slot in the closed state. -/
def slotClosed : uPortI2cData_t := ⟨-1, -1, -1, false⟩

/-- A slot opened the normal way on pins 4/5 at the default clock. -/
def slotOpen45 : uPortI2cData_t := ⟨4, 5, 100000, false⟩

/-- A slot opened by adoption (pins unset). -/
def slotAdopted : uPortI2cData_t := ⟨-1, -1, 400000, true⟩

/-- Initialised state with both slots closed. -/
def stInit : I2cState := ⟨true, [slotClosed, slotClosed], 0⟩

/-- Initialised state with slot 0 open (not adopted). -/
def stOpen0 : I2cState := ⟨true, [slotOpen45, slotClosed], 1⟩

/-- Initialised state with slot 0 adopted. -/
def stAdopted0 : I2cState := ⟨true, [slotAdopted, slotClosed], 1⟩

/-- A driver on which every configuration call succeeds and whose timeout
register reads back as 16. -/
def drvAllOk : HwDriver := ⟨fun _ => true, 16⟩

/-- A driver on which i2c_param_config fails and every other call
succeeds. -/
def drvParamConfigFails : HwDriver :=
  ⟨fun c => match c with | .paramConfig _ => false | _ => true, 16⟩

/-- C2 counterexample: on an adopted open slot, uPortI2cSetTimeout returns
InvalidParameter, not NotSupported, and uPortI2cGetTimeout does invoke the
driver (i2c_get_timeout) and returns the converted register value rather
than NotSupported. -/
theorem adopted_setTimeout_getTimeout_not_notSupported :
    (uPortI2cSetTimeout drvAllOk stAdopted0 0 10).1 =
      U_ERROR_COMMON_INVALID_PARAMETER ∧
    U_ERROR_COMMON_INVALID_PARAMETER ≠ U_ERROR_COMMON_NOT_SUPPORTED ∧
    (uPortI2cGetTimeout drvAllOk stAdopted0 0).2 = [HwCall.getTimeoutReg 0] ∧
    (uPortI2cGetTimeout drvAllOk stAdopted0 0).1 = 1 ∧
    (1 : Int) ≠ U_ERROR_COMMON_NOT_SUPPORTED :=
  ⟨by decide, by decide, by decide, by decide, by decide⟩

/-- C2 amended: on a valid open adopted slot, uPortI2cSetClock,
uPortI2cGetClock and uPortI2cCloseRecoverBus return NotSupported with no
driver call and no state change; uPortI2cSetTimeout also makes no driver
call but returns InvalidParameter; uPortI2cGetTimeout ignores the adopted
flag: it performs the i2c_get_timeout driver call and returns the converted
value (or the Platform error if the call fails). -/
theorem adopted_instance_operation_results (drv : HwDriver) (st : I2cState)
    (handle clockHertz timeoutMs : Int)
    (hm : st.mutexCreated = true) (h0 : 0 ≤ handle)
    (h2 : handle < (U_PORT_I2C_MAX_NUM : Int))
    (hopen : 0 < (st.slot handle).clockHertz)
    (had : (st.slot handle).adopted = true)
    (hck : 0 < clockHertz) (htm : 0 < timeoutMs) :
    uPortI2cSetClock drv st handle clockHertz =
      (st, U_ERROR_COMMON_NOT_SUPPORTED, []) ∧
    uPortI2cGetClock st handle = (U_ERROR_COMMON_NOT_SUPPORTED, []) ∧
    uPortI2cCloseRecoverBus st handle =
      (st, U_ERROR_COMMON_NOT_SUPPORTED, []) ∧
    uPortI2cSetTimeout drv st handle timeoutMs =
      (U_ERROR_COMMON_INVALID_PARAMETER, []) ∧
    uPortI2cGetTimeout drv st handle =
      (if drv.ok (.getTimeoutReg handle) then
        timeoutEsp32ToMs drv.timeoutRegValue
       else U_ERROR_COMMON_PLATFORM, [.getTimeoutReg handle]) := by
  refine ⟨?_, ?_, ?_, ?_, ?_⟩ <;>
    simp [uPortI2cSetClock, uPortI2cGetClock, uPortI2cCloseRecoverBus,
      uPortI2cSetTimeout, uPortI2cGetTimeout, hm, h0, h2, hopen, had, hck, htm]
  split <;> rfl

/-- C2 witness: the amended behaviour at the concrete adopted state. -/
theorem adopted_instance_operation_results_witness :
    uPortI2cSetClock drvAllOk stAdopted0 0 100000 =
      (stAdopted0, U_ERROR_COMMON_NOT_SUPPORTED, []) :=
  (adopted_instance_operation_results drvAllOk stAdopted0 0 100000 10
    (by decide) (by decide) (by decide) (by decide) (by decide) (by decide)
    (by decide)).1

/-- C4 counterexample: with both a send and a receive buffer supplied, the
send half of uPortI2cControllerSendReceive does contain a trailing stop
primitive (the code passes noStop = false to send), contradicting "the send
half is performed without a trailing stop condition". -/
theorem sendReceive_sendHalf_contains_stop :
    Prim.stop ∈ (uPortI2cControllerSendReceive (fun _ => true) stOpen0 0 42
      false 1 false 1).2.1 := by decide

/-- C4 amended: when both buffers are supplied, the send half is performed
WITH a trailing stop condition — send is invoked with noStop = false, so
(with all primitives succeeding) its transaction is start, address phase,
data write, stop, execute, and the subsequent receive starts a fresh
transaction rather than continuing via repeated start. -/
theorem sendReceive_sendHalf_trailing_stop (st : I2cState) (handle : Int)
    (address bytesToSend bytesToReceive : Nat)
    (hm : st.mutexCreated = true) (h0 : 0 ≤ handle)
    (h2 : handle < (U_PORT_I2C_MAX_NUM : Int))
    (hopen : 0 < (st.slot handle).clockHertz) :
    (uPortI2cControllerSendReceive (fun _ => true) st handle address false
        bytesToSend false bytesToReceive).2.1 =
      (if address > 127 then
        [Prim.start, Prim.writeByte (U_PORT_10BIT_HEADER_WRITE address) true,
         Prim.writeByte (U_PORT_10BIT_ADDRESS address) true]
       else
        [Prim.start,
         Prim.writeByte (U_PORT_7BIT_ADDRESS_WRITE address) true]) ++
        [Prim.write bytesToSend true, Prim.stop, Prim.execute] := by
  by_cases ha : address > 127 <;>
    simp [uPortI2cControllerSendReceive, send, chainCalls_allOk, hm, h0, h2,
      hopen, ha]

/-- C4 witness: the send-half trace at a concrete open state and address
42, one byte each way. -/
theorem sendReceive_sendHalf_trailing_stop_witness :
    (uPortI2cControllerSendReceive (fun _ => true) stOpen0 0 42 false 1
        false 1).2.1 =
      [Prim.start, Prim.writeByte (U_PORT_7BIT_ADDRESS_WRITE 42) true,
       Prim.write 1 true, Prim.stop, Prim.execute] := by
  have h := sendReceive_sendHalf_trailing_stop stOpen0 0 42 1 1 (by decide)
    (by decide) (by decide) (by decide)
  simpa using h

/-- The success flag of a short-circuit chain is the conjunction of the
outcomes of all listed calls. -/
theorem chainCalls_snd {α : Type} (ok : α → Bool) (l : List α) :
    (chainCalls ok l).2 = l.all ok := by
  induction l with
  | nil => rfl
  | cons c cs ih => by_cases h : ok c = true <;> simp [chainCalls, h, ih]

/-- Reading back the slot just written, when the index is in bounds. -/
theorem slot_setSlot_self (st : I2cState) (i : Int) (s : uPortI2cData_t)
    (h : i.toNat < st.gI2cData.length) : (st.setSlot i s).slot i = s := by
  show (st.gI2cData.set i.toNat s).getD i.toNat _ = s
  exact getD_set_self _ _ _ _ h

/-- C6: if uPortI2cSetClock on a valid open non-adopted handle with a
positive clock gets past i2c_get_timeout and i2c_driver_delete but any of
i2c_param_config, i2c_set_timeout or i2c_driver_install then fails, it
returns the Platform error and the slot is left in the closed state
(clockHertz = -1). -/
theorem setClock_midReconfig_failClosed (drv : HwDriver) (st : I2cState)
    (handle clockHertz : Int)
    (hm : st.mutexCreated = true) (h0 : 0 ≤ handle)
    (h2 : handle < (U_PORT_I2C_MAX_NUM : Int))
    (hlen : handle.toNat < st.gI2cData.length)
    (hopen : 0 < (st.slot handle).clockHertz)
    (had : (st.slot handle).adopted = false)
    (hck : 0 < clockHertz)
    (hgt : drv.ok (.getTimeoutReg handle) = true)
    (hdd : drv.ok (.driverDelete handle) = true)
    (hfail : (drv.ok (.paramConfig handle) &&
        (drv.ok (.setTimeoutReg handle (drv.timeoutRegValue : Int)) &&
          drv.ok (.driverInstall handle))) = false) :
    (uPortI2cSetClock drv st handle clockHertz).2.1 =
      U_ERROR_COMMON_PLATFORM ∧
    ((uPortI2cSetClock drv st handle clockHertz).1.slot handle).clockHertz =
      -1 := by
  have hsnd : (chainCalls drv.ok
      [HwCall.paramConfig handle,
       HwCall.setTimeoutReg handle (drv.timeoutRegValue : Int),
       HwCall.driverInstall handle]).2 = false := by
    rw [chainCalls_snd]
    simpa using hfail
  have hres : (uPortI2cSetClock drv st handle clockHertz).1 =
      st.setSlot handle { st.slot handle with clockHertz := -1 } := by
    simp [uPortI2cSetClock, hm, h0, h2, hopen, had, hck, hgt, hdd, hsnd]
  constructor
  · simp [uPortI2cSetClock, hm, h0, h2, hopen, had, hck, hgt, hdd, hsnd]
  · rw [hres, slot_setSlot_self st handle _ hlen]

/-- C6 witness: slot 0 of the concrete open state is left closed with the
Platform error when i2c_param_config fails during reconfiguration. -/
theorem setClock_midReconfig_failClosed_witness :
    (uPortI2cSetClock drvParamConfigFails stOpen0 0 400000).2.1 =
      U_ERROR_COMMON_PLATFORM ∧
    ((uPortI2cSetClock drvParamConfigFails stOpen0 0 400000).1.slot
        0).clockHertz = -1 :=
  setClock_midReconfig_failClosed drvParamConfigFails stOpen0 0 400000
    (by decide) (by decide) (by decide) (by decide) (by decide) (by decide)
    (by decide) (by decide) (by decide) (by decide)

/-- C8: with the table initialised, openI2c returns InvalidParameter
whenever the index is out of range, or the slot is already in use (whatever
the adopt flag), or isController is false, or adopt is false and either pin
is negative (the unset sentinel is -1); and with adopt true, unset pins are
accepted: on a valid free index with controller true the open succeeds,
returning the index as the handle and making no driver call. -/
theorem openI2c_invalidParameter_and_adopt (drv : HwDriver) (st : I2cState)
    (i2c pinSda pinSdc : Int) (controller adopt : Bool)
    (hm : st.mutexCreated = true) :
    ((¬(0 ≤ i2c ∧ i2c < (U_PORT_I2C_MAX_NUM : Int)) ∨
        0 < (st.slot i2c).clockHertz ∨ controller = false ∨
        (adopt = false ∧ (pinSda < 0 ∨ pinSdc < 0))) →
      (openI2c drv st i2c pinSda pinSdc controller adopt).2.1 =
        U_ERROR_COMMON_INVALID_PARAMETER) ∧
    (adopt = true → 0 ≤ i2c → i2c < (U_PORT_I2C_MAX_NUM : Int) →
      (st.slot i2c).clockHertz < 0 → controller = true →
      (openI2c drv st i2c pinSda pinSdc controller adopt).2.1 = i2c ∧
        (openI2c drv st i2c pinSda pinSdc controller adopt).2.2 = []) := by
  constructor
  · intro h
    have hcond : ¬(0 ≤ i2c ∧ i2c < (U_PORT_I2C_MAX_NUM : Int) ∧
        (st.slot i2c).clockHertz < 0 ∧ controller = true ∧
        (adopt = true ∨ (0 ≤ pinSda ∧ 0 ≤ pinSdc))) := by
      rcases h with h | h | h | ⟨h1, h1'⟩
      · rintro ⟨a, b, -, -, -⟩; exact h ⟨a, b⟩
      · rintro ⟨-, -, c, -, -⟩; omega
      · rintro ⟨-, -, -, d, -⟩; rw [h] at d; exact Bool.false_ne_true d
      · rintro ⟨-, -, -, -, e | ⟨p, q⟩⟩
        · rw [h1] at e; exact Bool.false_ne_true e
        · omega
    simp [openI2c, hm, hcond]
  · intro ha h0 h2 hclosed hc
    simp [openI2c, hm, h0, h2, hclosed, hc, ha]

/-- C8 witness: adopting index 1 with both pins unset on the freshly
initialised state succeeds with handle 1 and no driver calls; the claim's
hypotheses hold there. -/
theorem openI2c_invalidParameter_and_adopt_witness :
    (openI2c drvAllOk stInit 1 (-1) (-1) true true).2.1 = 1 ∧
    (openI2c drvAllOk stInit 1 (-1) (-1) true true).2.2 = [] :=
  (openI2c_invalidParameter_and_adopt drvAllOk stInit 1 (-1) (-1) true true
    (by decide)).2 rfl (by decide) (by decide) (by decide) rfl

/-- C9: uPortI2cCloseRecoverBus on a valid open non-adopted handle returns
NotSupported and nevertheless closes the instance: it deletes the driver,
marks the slot closed (clockHertz = -1) and decrements the open-resource
counter. -/
theorem closeRecoverBus_notSupported_still_closes (st : I2cState)
    (handle : Int)
    (hm : st.mutexCreated = true) (h0 : 0 ≤ handle)
    (h2 : handle < (U_PORT_I2C_MAX_NUM : Int))
    (hlen : handle.toNat < st.gI2cData.length)
    (hopen : 0 < (st.slot handle).clockHertz)
    (had : (st.slot handle).adopted = false) :
    (uPortI2cCloseRecoverBus st handle).2.1 = U_ERROR_COMMON_NOT_SUPPORTED ∧
    (uPortI2cCloseRecoverBus st handle).2.2 = [HwCall.driverDelete handle] ∧
    ((uPortI2cCloseRecoverBus st handle).1.slot handle).clockHertz = -1 ∧
    (uPortI2cCloseRecoverBus st handle).1.gResourceAllocCount =
      st.gResourceAllocCount - 1 := by
  have hres : uPortI2cCloseRecoverBus st handle =
      ({ st.setSlot handle { st.slot handle with clockHertz := -1 } with
          gResourceAllocCount := st.gResourceAllocCount - 1 },
        U_ERROR_COMMON_NOT_SUPPORTED, [HwCall.driverDelete handle]) := by
    simp [uPortI2cCloseRecoverBus, closeI2c, hm, h0, h2, hopen, had]
  rw [hres]
  refine ⟨rfl, rfl, ?_, rfl⟩
  show ((st.setSlot handle
      { st.slot handle with clockHertz := -1 }).slot handle).clockHertz = -1
  rw [slot_setSlot_self st handle _ hlen]

/-- C9 witness: closing slot 0 of the concrete open state with bus
recovery. -/
theorem closeRecoverBus_notSupported_still_closes_witness :
    (uPortI2cCloseRecoverBus stOpen0 0).2.1 = U_ERROR_COMMON_NOT_SUPPORTED ∧
    (uPortI2cCloseRecoverBus stOpen0 0).2.2 = [HwCall.driverDelete 0] ∧
    ((uPortI2cCloseRecoverBus stOpen0 0).1.slot 0).clockHertz = -1 ∧
    (uPortI2cCloseRecoverBus stOpen0 0).1.gResourceAllocCount =
      stOpen0.gResourceAllocCount - 1 :=
  closeRecoverBus_notSupported_still_closes stOpen0 0 (by decide) (by decide)
    (by decide) (by decide) (by decide) (by decide)

/-- C10: when uPortI2cSetClock fails after i2c_driver_delete (here:
i2c_param_config fails), the slot is marked closed without decrementing the
open-resource counter: if the counter equalled the number of in-use slots
before the call, afterwards it is unchanged and strictly greater than the
number of in-use slots — the counter/open-slots invariant is not preserved
by every operation. -/
theorem setClock_failure_counter_exceeds_open_slots (drv : HwDriver)
    (st : I2cState) (handle clockHertz : Int)
    (hm : st.mutexCreated = true) (h0 : 0 ≤ handle)
    (h2 : handle < (U_PORT_I2C_MAX_NUM : Int))
    (hlen : handle.toNat < st.gI2cData.length)
    (hopen : 0 < (st.slot handle).clockHertz)
    (had : (st.slot handle).adopted = false)
    (hck : 0 < clockHertz)
    (hgt : drv.ok (.getTimeoutReg handle) = true)
    (hdd : drv.ok (.driverDelete handle) = true)
    (hpc : drv.ok (.paramConfig handle) = false)
    (hinv : st.gResourceAllocCount = (openSlotCount st : Int)) :
    uPortI2cResourceAllocCount (uPortI2cSetClock drv st handle clockHertz).1 =
      st.gResourceAllocCount ∧
    (openSlotCount (uPortI2cSetClock drv st handle clockHertz).1 : Int) <
      uPortI2cResourceAllocCount
        (uPortI2cSetClock drv st handle clockHertz).1 := by
  have hres : (uPortI2cSetClock drv st handle clockHertz).1 =
      st.setSlot handle { st.slot handle with clockHertz := -1 } := by
    simp [uPortI2cSetClock, chainCalls, hm, h0, h2, hopen, had, hck, hgt,
      hdd, hpc]
  have hcount :
      openSlotCount
          (st.setSlot handle { st.slot handle with clockHertz := -1 }) + 1 =
        openSlotCount st := by
    refine countP_set_of_flip _ _ _ _ ⟨-1, -1, -1, false⟩ hlen ?_ (by simp)
    simpa [I2cState.slot] using hopen
  rw [hres]
  have hcnt : (st.setSlot handle
      { st.slot handle with clockHertz := -1 }).gResourceAllocCount =
      st.gResourceAllocCount := rfl
  refine ⟨hcnt, ?_⟩
  rw [uPortI2cResourceAllocCount, hcnt, hinv]
  omega

/-- C10 witness: the concrete open state with the invariant holding (count
1, one open slot); after the failing reconfiguration the counter is still 1
while no slot is in use. -/
theorem setClock_failure_counter_exceeds_open_slots_witness :
    uPortI2cResourceAllocCount
        (uPortI2cSetClock drvParamConfigFails stOpen0 0 400000).1 =
      stOpen0.gResourceAllocCount ∧
    (openSlotCount (uPortI2cSetClock drvParamConfigFails stOpen0 0
        400000).1 : Int) <
      uPortI2cResourceAllocCount
        (uPortI2cSetClock drvParamConfigFails stOpen0 0 400000).1 :=
  setClock_failure_counter_exceeds_open_slots drvParamConfigFails stOpen0 0
    400000 (by decide) (by decide) (by decide) (by decide) (by decide)
    (by decide) (by decide) (by decide) (by decide) (by decide) (by decide)
